import Mathlib

/-!
Shallow embedding of the `testpy` repository (a Playwright-based consent-test
harness) and proofs about it.

Sources embedded:
* `helpers.py`: `click_consent_button`, `check_consent_cookie`,
  `check_script_load`, `monitor_ajax_requests` (its `handle_request` /
  `handle_response` callbacks).
* `app.py`: `visit_and_check_consent` (top-level run, error handling,
  teardown, result serialization).
* `main.py`: the `GET /title` endpoint (`get_title`).

External library behaviour (Python `base64.b64decode`, `bytes.decode("utf-8")`,
the `in` substring operator, `str.strip`, `str.lower`) is modelled by
executable Lean functions below.  Browser / network effects are modelled by
explicit event values and `Except`-valued environment oracles: an `Except.error`
value stands for the corresponding library call raising an exception, which the
embedded control flow then propagates or catches exactly where the Python
`try`/`except` blocks do.
-/

namespace Testpy

/-! ### Python string primitives -/

/-- Python's substring operator `needle in hay`, on character lists. -/
def pyInChars (needle : List Char) : List Char → Bool
  | [] => decide (needle = [])
  | c :: cs => needle.isPrefixOf (c :: cs) || pyInChars needle cs

/-- Python's substring operator `needle in hay` on strings. -/
def pyIn (needle hay : String) : Bool :=
  pyInChars needle.data hay.data

/-- ASCII whitespace as stripped by Python `str.strip()` (the unicode cases
are irrelevant to this repository's configuration strings). -/
def pyIsSpace (c : Char) : Bool :=
  c = ' ' || c = '\t' || c = '\n' || c = '\x0d' || c = '\x0b' || c = '\x0c'

/-- Python `str.strip()`: drop leading and trailing whitespace. -/
def pyStrip (s : String) : String :=
  String.mk (((s.data.dropWhile pyIsSpace).reverse.dropWhile pyIsSpace).reverse)

/-- Python `str.lower()` (ASCII case mapping). -/
def pyLower (s : String) : String :=
  String.mk (s.data.map Char.toLower)

/-! ### Python `base64.b64decode` + `bytes.decode("utf-8")`

`base64.b64decode(v)` with default `validate=False` discards characters
outside the standard alphabet and the padding character, then decodes groups
of four; it raises `binascii.Error` when the remaining data has invalid
padding (e.g. a number of data characters ≡ 1 mod 4).  We model the raising
cases as `none`. -/

/-- Value of a standard-alphabet base64 character. -/
def b64CharVal (c : Char) : Option Nat :=
  if 'A' ≤ c ∧ c ≤ 'Z' then some (c.toNat - 65)
  else if 'a' ≤ c ∧ c ≤ 'z' then some (c.toNat - 71)
  else if '0' ≤ c ∧ c ≤ '9' then some (c.toNat + 4)
  else if c = '+' then some 62
  else if c = '/' then some 63
  else none

/-- Decode a cleaned base64 character stream (groups of four, final group may
carry `=` padding) into bytes; `none` models `binascii.Error`. -/
def b64Quads : List Char → Option (List Nat)
  | [] => some []
  | a :: b :: c :: d :: rest =>
    match b64CharVal a, b64CharVal b with
    | some va, some vb =>
      if c = '=' ∧ d = '=' ∧ rest = [] then
        some [va * 4 + vb / 16]
      else
        match b64CharVal c with
        | some vc =>
          if d = '=' ∧ rest = [] then
            some [va * 4 + vb / 16, (vb % 16) * 16 + vc / 4]
          else
            match b64CharVal d with
            | some vd =>
              (b64Quads rest).map
                (fun tail => (va * 4 + vb / 16) :: ((vb % 16) * 16 + vc / 4)
                  :: ((vc % 4) * 64 + vd) :: tail)
            | none => none
        | none => none
    | _, _ => none
  | _ => none

/-- Python `base64.b64decode` (default non-validating mode): discard
foreign characters, then decode; `none` models a raised `binascii.Error`. -/
def b64decode (s : String) : Option (List Nat) :=
  b64Quads (s.data.filter (fun c => (b64CharVal c).isSome || c = '='))

/-- UTF-8 decoding of a byte list; `none` models a raised
`UnicodeDecodeError` from `bytes.decode("utf-8")`. -/
def utf8Decode : List Nat → Option (List Char)
  | [] => some []
  | b :: bs =>
    if b < 128 then
      (utf8Decode bs).map (fun cs => Char.ofNat b :: cs)
    else if 194 ≤ b ∧ b ≤ 223 then
      match bs with
      | b2 :: bs2 =>
        if 128 ≤ b2 ∧ b2 ≤ 191 then
          (utf8Decode bs2).map (fun cs => Char.ofNat ((b - 192) * 64 + (b2 - 128)) :: cs)
        else none
      | [] => none
    else if 224 ≤ b ∧ b ≤ 239 then
      match bs with
      | b2 :: b3 :: bs3 =>
        if (if b = 224 then 160 ≤ b2 ∧ b2 ≤ 191
            else if b = 237 then 128 ≤ b2 ∧ b2 ≤ 159
            else 128 ≤ b2 ∧ b2 ≤ 191) ∧ 128 ≤ b3 ∧ b3 ≤ 191 then
          (utf8Decode bs3).map
            (fun cs => Char.ofNat ((b - 224) * 4096 + (b2 - 128) * 64 + (b3 - 128)) :: cs)
        else none
      | _ => none
    else if 240 ≤ b ∧ b ≤ 244 then
      match bs with
      | b2 :: b3 :: b4 :: bs4 =>
        if (if b = 240 then 144 ≤ b2 ∧ b2 ≤ 191
            else if b = 244 then 128 ≤ b2 ∧ b2 ≤ 143
            else 128 ≤ b2 ∧ b2 ≤ 191) ∧ 128 ≤ b3 ∧ b3 ≤ 191 ∧ 128 ≤ b4 ∧ b4 ≤ 191 then
          (utf8Decode bs4).map
            (fun cs => Char.ofNat ((b - 240) * 262144 + (b2 - 128) * 4096
              + (b3 - 128) * 64 + (b4 - 128)) :: cs)
        else none
      | _ => none
    else none

/-- Composition `base64.b64decode(v).decode("utf-8")`; `none` models either step raising. -/
def b64DecodeUtf8 (s : String) : Option String :=
  (b64decode s).bind (fun bytes => (utf8Decode bytes).map String.mk)

/-! ### `helpers.py`: `click_consent_button` -/

/-- One entry of the `CONSENT_BUTTONS` configuration list. -/
structure ConsentRule where
  selector : String
  text : String
  deriving DecidableEq

/-- A rendered element as seen by the probe: its `inner_text()`. -/
structure BElement where
  inner_text : String
  deriving DecidableEq

/-- The body of the inner loop's condition:
`expected_text.lower() in button.inner_text().strip().lower()`. -/
def ruleMatches (rule : ConsentRule) (b : BElement) : Bool :=
  pyIn (pyLower rule.text) (pyLower (pyStrip b.inner_text))

/-- Model of `helpers.click_consent_button`: walk the rules in order, and for each rule
the elements returned by `page.locator(selector).all()` in document order;
click the first element whose text matches and return `True`, else `False`.
The first component records the elements clicked (the page is a map from
selector to the element list the locator yields). -/
def click_consent_button (rules : List ConsentRule) (page : String → List BElement) :
    List BElement × Bool :=
  match rules with
  | [] => ([], false)
  | r :: rs =>
    match (page r.selector).find? (ruleMatches r) with
    | some b => ([b], true)
    | none => click_consent_button rs page

/-! ### `helpers.py`: `check_consent_cookie` -/

/-- A browser cookie as returned by `context.cookies()` (name and value are
the only fields the probe reads). -/
structure Cookie where
  name : String
  value : String
  deriving DecidableEq

/-- Model of `helpers.check_consent_cookie`: take the first cookie with the configured
name (`next(...)`); if present, base64-decode its value to UTF-8 text
(decoding failure is caught and yields `False`), and report whether the
configured expected substring occurs in the decoded text. -/
def check_consent_cookie (cookieName expected : String) (cookies : List Cookie) : Bool :=
  match cookies.find? (fun c => c.name == cookieName) with
  | none => false
  | some c =>
    match b64DecodeUtf8 c.value with
    | none => false
    | some decoded => pyIn expected decoded

/-! ### `helpers.py`: `check_script_load` -/

/-- A `<script>` element: its `src` attribute (`none` when absent). -/
structure ScriptEl where
  src : Option String
  deriving DecidableEq

/-- The truthiness filter `if script.get_attribute("src")`: keeps attributes
that are present and non-empty. -/
def srcTruthy (s : ScriptEl) : Option String :=
  match s.src with
  | none => none
  | some v => if v = "" then none else some v

/-- Model of `helpers.check_script_load`: collect the truthy `src` attributes of all
`<script>` elements, and return whether any contains the target pattern. -/
def check_script_load (pattern : String) (scripts : List ScriptEl) : Bool :=
  (scripts.filterMap srcTruthy).any (fun v => pyIn pattern v)

/-! ### `helpers.py`: `monitor_ajax_requests`

The correlator's mutable closure state (`request_map`, `ajax_data`) is made
explicit as `MonitorState`; the two Playwright callbacks become pure state
transformers over browser-delivered events.  The Python dict `request_map`
is modelled as an insertion-ordered association list with dict update /
lookup / delete semantics. -/

/-- The fields of the `request_info` dict built by `handle_request` (and of
the synthesized fallback in `handle_response`). -/
structure RequestInfo where
  url : String
  method : String
  request_headers : List (String × String)
  request_body : Option String
  timestamp : String
  deriving DecidableEq

/-- The merged request+response dict appended to `ajax_data`. -/
structure ResponseInfo where
  url : String
  method : String
  request_headers : List (String × String)
  request_body : Option String
  timestamp : String
  status : Nat
  response_headers : List (String × String)
  response_body : String
  deriving DecidableEq

/-- A Playwright `request` event as read by `handle_request`. -/
structure RequestEvent where
  resource_type : String
  url : String
  method : String
  headers : List (String × String)
  post_data : Option String
  timestamp : String
  deriving DecidableEq

/-- A Playwright `response` event as read by `handle_response`.  `body` is
the outcome of `response.text()`: `none` models the call raising. -/
structure ResponseEvent where
  resource_type : String
  url : String
  req_method : String
  req_headers : List (String × String)
  timestamp : String
  status : Nat
  headers : List (String × String)
  body : Option String
  deriving DecidableEq

/-- Python dict lookup `m.get(k)` on an association list. -/
def dictGet {α : Type} : List (String × α) → String → Option α
  | [], _ => none
  | p :: ps, k => if p.1 = k then some p.2 else dictGet ps k

/-- Python dict update `m[k] = v`: replace in place when the key is present,
else append (dicts preserve insertion order). -/
def dictSet {α : Type} : List (String × α) → String → α → List (String × α)
  | [], k, v => [(k, v)]
  | p :: ps, k, v => if p.1 = k then (k, v) :: ps else p :: dictSet ps k v

/-- Python `del m[k]` (as guarded by `if k in m`): remove the entry for `k`.
On the key-nodup states a dict can reach, removing all occurrences equals
removing the one occurrence. -/
def dictDel {α : Type} (m : List (String × α)) (k : String) : List (String × α) :=
  m.filter (fun p => p.1 ≠ k)

/-- Test `request.resource_type in ["xhr", "fetch"]`. -/
def isAjaxType (t : String) : Bool :=
  (["xhr", "fetch"] : List String).contains t

/-- The guard `if target_url and target_url not in url: return`, i.e. the
event is processed when no target filter is set or the URL contains it
(an empty-string filter is falsy in Python, and `"" in url` always holds,
so both readings coincide on `some ""`). -/
def passesFilter (target_url : Option String) (url : String) : Bool :=
  match target_url with
  | none => true
  | some t => pyIn t url

/-- A request event reaches the recording code of `handle_request`. -/
def requestPasses (target_url : Option String) (r : RequestEvent) : Bool :=
  isAjaxType r.resource_type && passesFilter target_url r.url

/-- A response event reaches the recording code of `handle_response`. -/
def responsePasses (target_url : Option String) (e : ResponseEvent) : Bool :=
  isAjaxType e.resource_type && passesFilter target_url e.url

/-- The `request_info` dict `handle_request` stores:
`request_body` is the POST data only for POST requests. -/
def requestInfoOf (r : RequestEvent) : RequestInfo :=
  { url := r.url
    method := r.method
    request_headers := r.headers
    request_body := if r.method = "POST" then r.post_data else none
    timestamp := r.timestamp }

/-- The synthesized fallback record `handle_response` uses when no pending
entry exists for the response's URL (`request_body = None`). -/
def fallbackInfo (e : ResponseEvent) : RequestInfo :=
  { url := e.url
    method := e.req_method
    request_headers := e.req_headers
    request_body := none
    timestamp := e.timestamp }

/-- The merged dict `{**request_info, "status": ..., "response_headers": ...,
"response_body": ...}` appended to `ajax_data`. -/
def mergeInfo (ri : RequestInfo) (e : ResponseEvent) (body : String) : ResponseInfo :=
  { url := ri.url
    method := ri.method
    request_headers := ri.request_headers
    request_body := ri.request_body
    timestamp := ri.timestamp
    status := e.status
    response_headers := e.headers
    response_body := body }

/-- The closure state of one `monitor_ajax_requests` registration. -/
structure MonitorState where
  ajax_data : List ResponseInfo
  request_map : List (String × RequestInfo)
  deriving DecidableEq

/-- The state right after `monitor_ajax_requests` registers its callbacks. -/
def initState : MonitorState :=
  { ajax_data := [], request_map := [] }

/-- Model of `handle_request`: on an xhr/fetch request passing the URL filter, store
its data in `request_map` keyed by URL (overwriting any earlier entry). -/
def handle_request (target_url : Option String) (s : MonitorState)
    (r : RequestEvent) : MonitorState :=
  if requestPasses target_url r then
    { s with request_map := dictSet s.request_map r.url (requestInfoOf r) }
  else s

/-- Model of `handle_response`: on an xhr/fetch response passing the URL filter, look
up the pending entry (fallback if absent); if `response.text()` succeeds,
append the merged record to `ajax_data` (a raise is caught and nothing is
appended); in either case delete the pending entry for the URL afterwards. -/
def handle_response (target_url : Option String) (s : MonitorState)
    (e : ResponseEvent) : MonitorState :=
  if responsePasses target_url e then
    let request_info := (dictGet s.request_map e.url).getD (fallbackInfo e)
    let s1 :=
      match e.body with
      | some b => { s with ajax_data := s.ajax_data ++ [mergeInfo request_info e b] }
      | none => s
    { s1 with request_map := dictDel s1.request_map e.url }
  else s

/-- An event delivered to the registered callbacks. -/
inductive PageEvent where
  | req : RequestEvent → PageEvent
  | res : ResponseEvent → PageEvent

/-- Dispatch one delivered event to the matching callback. -/
def monitorStep (target_url : Option String) (s : MonitorState) :
    PageEvent → MonitorState
  | .req r => handle_request target_url s r
  | .res e => handle_response target_url s e

/-- Process a whole sequence of delivered events. -/
def processEvents (target_url : Option String) (s : MonitorState)
    (es : List PageEvent) : MonitorState :=
  es.foldl (monitorStep target_url) s

/-- The `request_map` keys are pairwise distinct (the invariant every Python
dict maintains, stated for the association-list model). -/
def KeysNodup (s : MonitorState) : Prop :=
  (s.request_map.map Prod.fst).Nodup

/-! ### `app.py`: `visit_and_check_consent`

The run's interactions with the browser are an environment of
`Except`-valued oracles (`Except.error e` models the call raising with
`str(exception) = e`).  The `finally` block's `if 'browser' in locals()`
test holds exactly when `launch_browser` returned, i.e. when the launch
oracle is `Except.ok`. -/

/-- Oracle outcomes for the browser interactions of one run, plus the
contents the two AJAX monitors have accumulated by the time the `try`
body reaches its final `extend` calls. -/
structure RunEnv where
  launch : Except String Unit
  clear_storage : Except String Unit
  goto_target : Except String Unit
  consent_click : Except String Bool
  script_check : Except String Bool
  cookie_check : Except String Bool
  jsa_load_data : List ResponseInfo
  jsa_config_data : List ResponseInfo

/-- The `result` dict of `visit_and_check_consent`: metadata, the two
request lists (keyed `"JSALOAD"` and `"JSACONFIG"`), the `page_info`
sub-dict (absent until set), and the `error` key (absent until set). -/
structure TestResult where
  target_url : String
  timestamp : String
  requests_JSALOAD : List ResponseInfo
  requests_JSACONFIG : List ResponseInfo
  page_info : Option (Bool × Bool)
  error : Option String
  deriving DecidableEq

/-- The `try` body of `visit_and_check_consent` up to (but not including)
the `result` mutations: launch, clear storage (which navigates), navigate
to the target, click consent, check the script, and — only when the script
loaded — check the cookie.  The first raise aborts the body. -/
def runTryBody (env : RunEnv) : Except String (Bool × Bool) :=
  env.launch.bind (fun _ =>
    env.clear_storage.bind (fun _ =>
      env.goto_target.bind (fun _ =>
        env.consent_click.bind (fun consent_clicked =>
          env.script_check.bind (fun script_loaded =>
            (if script_loaded then env.cookie_check.map (fun _ => ()) else .ok ()).bind
              (fun _ => .ok (consent_clicked, script_loaded)))))))

/-- What a run leaves behind: the in-memory `result` dict, whether
`browser.close()` ran in the `finally` block, and the contents of
`consent_test_results.json` after the `json.dump`. -/
structure RunOutcome where
  result : TestResult
  browser_closed : Bool
  file_content : String
  deriving DecidableEq

/-- Serialize an optional string JSON value (naive quoting; the
configuration strings involved contain no characters needing escapes). -/
def jsonStr (s : String) : String :=
  "\"" ++ s ++ "\""

/-- Serialize one merged request+response record. -/
def serializeResponseInfo (ri : ResponseInfo) : String :=
  "\x7b\"url\": " ++ jsonStr ri.url
    ++ ", \"method\": " ++ jsonStr ri.method
    ++ ", \"request_body\": " ++ (match ri.request_body with
        | none => "null"
        | some b => jsonStr b)
    ++ ", \"timestamp\": " ++ jsonStr ri.timestamp
    ++ ", \"status\": " ++ toString ri.status
    ++ ", \"response_body\": " ++ jsonStr ri.response_body ++ "\x7d"

/-- Serialize a list of records as a JSON array. -/
def serializeList (l : List ResponseInfo) : String :=
  "[" ++ String.intercalate ", " (l.map serializeResponseInfo) ++ "]"

/-- Serialization `json.dump(result, json_file)`: the file content a run writes. -/
def serializeTestResult (r : TestResult) : String :=
  "\x7b\"metadata\": \x7b\"target_url\": " ++ jsonStr r.target_url
    ++ ", \"timestamp\": " ++ jsonStr r.timestamp ++ "\x7d"
    ++ ", \"requests\": \x7b\"JSALOAD\": " ++ serializeList r.requests_JSALOAD
    ++ ", \"JSACONFIG\": " ++ serializeList r.requests_JSACONFIG ++ "\x7d"
    ++ (match r.page_info with
        | none => ""
        | some p => ", \"page_info\": \x7b\"consent_clicked\": "
            ++ (if p.1 then "true" else "false")
            ++ ", \"script_loaded\": " ++ (if p.2 then "true" else "false") ++ "\x7d")
    ++ (match r.error with
        | none => ""
        | some e => ", \"error\": " ++ jsonStr e)
    ++ "\x7d"

/-- Model of `app.visit_and_check_consent`: build the initial `result` dict; run the
`try` body — on success extend the two request lists from the monitors and
set `page_info`, on a raise set `error` to the exception's string form; in
the `finally` block close the browser when it was bound and overwrite
`consent_test_results.json` with the serialized result.  `prior_file` is the
file's previous content; the write never depends on it. -/
def visit_and_check_consent (target_url timestamp : String) (env : RunEnv)
    (_prior_file : String) : RunOutcome :=
  let base : TestResult :=
    { target_url := target_url
      timestamp := timestamp
      requests_JSALOAD := []
      requests_JSACONFIG := []
      page_info := none
      error := none }
  let result :=
    match runTryBody env with
    | .ok (consent_clicked, script_loaded) =>
      { base with
          requests_JSALOAD := env.jsa_load_data
          requests_JSACONFIG := env.jsa_config_data
          page_info := some (consent_clicked, script_loaded) }
    | .error e => { base with error := some e }
  { result := result
    browser_closed := match env.launch with | .ok _ => true | .error _ => false
    file_content := serializeTestResult result }

/-! ### `main.py`: the `GET /title` endpoint -/

/-- Oracle outcomes for the browser interactions of one `/title` request. -/
structure TitleEnv where
  launch : Except String Unit
  new_page : Except String Unit
  goto : Except String Unit
  title : Except String String

/-- The `try` body of the endpoint: launch, open a page, navigate, read the
title; the first raise aborts with the (traceback) string. -/
def titleChain (env : TitleEnv) : Except String String :=
  env.launch.bind (fun _ =>
    env.new_page.bind (fun _ =>
      env.goto.bind (fun _ => env.title)))

/-- Model of `main.get_title` (the `/title` handler): on success return
`{"message": ..., "title": title}`, on any raise return `{"error": tb}`.
The response body is its ordered key/value list. -/
def get_title (env : TitleEnv) : List (String × String) :=
  match titleChain env with
  | .ok t => [("message", "Page title fetched successfully!"), ("title", t)]
  | .error e => [("error", e)]

/-- The string form of the first exception raised by browser launch or
navigation (the steps before any probe runs), if any: this is the exception
the top-level `except` block of `visit_and_check_consent` observes when the
failure happens during launch or navigation. -/
def navError (env : RunEnv) : Option String :=
  match env.launch with
  | .error e => some e
  | .ok _ =>
    match env.clear_storage with
    | .error e => some e
    | .ok _ =>
      match env.goto_target with
      | .error e => some e
      | .ok _ => none

/-! ### Concrete sample inputs (used to instantiate the theorems below) -/

/-- A sample xhr POST request event. -/
def rqW : RequestEvent :=
  { resource_type := "xhr"
    url := "https://x/api?x=1"
    method := "POST"
    headers := [("content-type", "application/json")]
    post_data := some "a=1"
    timestamp := "2025-01-01 00:00:00" }

/-- A later request to the same URL (e.g. a retry before any response). -/
def rq2W : RequestEvent :=
  { rqW with post_data := some "a=2", timestamp := "2025-01-01 00:00:01" }

/-- A sample xhr response event for the same URL with a readable body. -/
def reW : ResponseEvent :=
  { resource_type := "xhr"
    url := "https://x/api?x=1"
    req_method := "POST"
    req_headers := [("content-type", "application/json")]
    timestamp := "2025-01-01 00:00:02"
    status := 200
    headers := [("server", "nginx")]
    body := some "ok-body" }

/-- The same response but with `response.text()` raising. -/
def reFailW : ResponseEvent :=
  { reW with body := none, timestamp := "2025-01-01 00:00:03" }

/-- A monitor state holding one pending entry for the sample URL. -/
def stateW : MonitorState :=
  { ajax_data := [], request_map := [("https://x/api?x=1", requestInfoOf rqW)] }

/-- A sample consent-rule list: a broad rule followed by a specific one. -/
def clickRulesW : List ConsentRule :=
  [{ selector := "#broad", text := "ok" }, { selector := "#specific", text := "accept" }]

/-- A sample page: the broad selector yields a non-matching and a matching
element, the specific selector yields a matching element. -/
def clickPageW : String → List BElement :=
  fun s =>
    if s = "#broad" then [{ inner_text := "Nope" }, { inner_text := "  OK  " }]
    else if s = "#specific" then [{ inner_text := "Accept all" }]
    else []

/-- A run environment whose browser launch raises. -/
def runEnvFailW : RunEnv :=
  { launch := .error "net::ERR_NAME_NOT_RESOLVED"
    clear_storage := .ok ()
    goto_target := .ok ()
    consent_click := .ok true
    script_check := .ok true
    cookie_check := .ok true
    jsa_load_data := []
    jsa_config_data := [] }

/-! ## Helper lemmas -/

theorem dictGet_dictSet_self {α : Type} (m : List (String × α)) (k : String) (v : α) :
    dictGet (dictSet m k v) k = some v := by
  induction m with
  | nil => simp [dictSet, dictGet]
  | cons p ps ih =>
    by_cases h : p.1 = k
    · simp [dictSet, h, dictGet]
    · simp [dictSet, h, dictGet, ih]

theorem mem_keys_dictSet {α : Type} (m : List (String × α)) (k a : String) (v : α) :
    a ∈ (dictSet m k v).map Prod.fst ↔ a ∈ m.map Prod.fst ∨ a = k := by
  induction m with
  | nil => simp [dictSet]
  | cons p ps ih =>
    by_cases h : p.1 = k
    · subst h
      simp [dictSet]
      tauto
    · simp [dictSet, h, ih]
      tauto

theorem keys_nodup_dictSet {α : Type} (m : List (String × α)) (k : String) (v : α)
    (h : (m.map Prod.fst).Nodup) : ((dictSet m k v).map Prod.fst).Nodup := by
  induction m with
  | nil => simp [dictSet]
  | cons p ps ih =>
    rw [List.map_cons, List.nodup_cons] at h
    by_cases hk : p.1 = k
    · subst hk
      simpa [dictSet] using h
    · have h1 : dictSet (p :: ps) k v = p :: dictSet ps k v := by
        simp [dictSet, hk]
      rw [h1, List.map_cons, List.nodup_cons]
      refine ⟨fun hmem => ?_, ih h.2⟩
      rcases (mem_keys_dictSet ps k p.1 v).1 hmem with hin | heq
      · exact h.1 hin
      · exact hk heq

theorem keys_nodup_dictDel {α : Type} (m : List (String × α)) (k : String)
    (h : (m.map Prod.fst).Nodup) : ((dictDel m k).map Prod.fst).Nodup := by
  have hsub : List.Sublist ((dictDel m k).map Prod.fst) (m.map Prod.fst) :=
    (List.filter_sublist m).map Prod.fst
  exact h.sublist hsub

theorem dictGet_dictDel_self {α : Type} (m : List (String × α)) (k : String) :
    dictGet (dictDel m k) k = none := by
  induction m with
  | nil => rfl
  | cons p ps ih =>
    by_cases h : p.1 = k
    · simpa [dictDel, h] using ih
    · simpa [dictDel, List.filter_cons, h, dictGet] using ih

theorem countP_key_of_nodup {α : Type} (m : List (String × α))
    (h : (m.map Prod.fst).Nodup) (u : String) :
    m.countP (fun p => p.1 == u) ≤ 1 := by
  have heq : m.countP (fun p => p.1 == u) = (m.map Prod.fst).count u := by
    rw [List.count, List.countP_map]
    rfl
  rw [heq]
  exact List.nodup_iff_count_le_one.1 h u

theorem handle_request_request_map (target_url : Option String) (s : MonitorState)
    (r : RequestEvent) (h : requestPasses target_url r = true) :
    (handle_request target_url s r).request_map
      = dictSet s.request_map r.url (requestInfoOf r) := by
  simp [handle_request, h]

theorem handle_request_not_passing (target_url : Option String) (s : MonitorState)
    (r : RequestEvent) (h : requestPasses target_url r = false) :
    handle_request target_url s r = s := by
  simp [handle_request, h]

theorem handle_request_ajax_data (target_url : Option String) (s : MonitorState)
    (r : RequestEvent) : (handle_request target_url s r).ajax_data = s.ajax_data := by
  unfold handle_request
  split <;> rfl

theorem handle_response_request_map (target_url : Option String) (s : MonitorState)
    (e : ResponseEvent) (h : responsePasses target_url e = true) :
    (handle_response target_url s e).request_map = dictDel s.request_map e.url := by
  unfold handle_response
  rw [if_pos h]
  cases e.body <;> rfl

theorem handle_response_not_passing (target_url : Option String) (s : MonitorState)
    (e : ResponseEvent) (h : responsePasses target_url e = false) :
    handle_response target_url s e = s := by
  simp [handle_response, h]

theorem handle_response_ajax_data_some (target_url : Option String) (s : MonitorState)
    (e : ResponseEvent) (b : String) (h : responsePasses target_url e = true)
    (hb : e.body = some b) :
    (handle_response target_url s e).ajax_data
      = s.ajax_data
        ++ [mergeInfo ((dictGet s.request_map e.url).getD (fallbackInfo e)) e b] := by
  unfold handle_response
  rw [if_pos h, hb]

theorem handle_response_ajax_data_none (target_url : Option String) (s : MonitorState)
    (e : ResponseEvent) (hb : e.body = none) :
    (handle_response target_url s e).ajax_data = s.ajax_data := by
  unfold handle_response
  split
  · rw [hb]
  · rfl

theorem keysNodup_monitorStep (target_url : Option String) (s : MonitorState)
    (e : PageEvent) (h : KeysNodup s) : KeysNodup (monitorStep target_url s e) := by
  cases e with
  | req r =>
    cases hp : requestPasses target_url r with
    | false => simpa [monitorStep, handle_request_not_passing target_url s r hp]
    | true =>
      have hm := handle_request_request_map target_url s r hp
      unfold KeysNodup
      rw [show (monitorStep target_url s (PageEvent.req r)).request_map
            = (handle_request target_url s r).request_map from rfl, hm]
      exact keys_nodup_dictSet _ _ _ h
  | res ev =>
    cases hp : responsePasses target_url ev with
    | false => simpa [monitorStep, handle_response_not_passing target_url s ev hp]
    | true =>
      have hm := handle_response_request_map target_url s ev hp
      unfold KeysNodup
      rw [show (monitorStep target_url s (PageEvent.res ev)).request_map
            = (handle_response target_url s ev).request_map from rfl, hm]
      exact keys_nodup_dictDel _ _ h

theorem keysNodup_processEvents (target_url : Option String) (es : List PageEvent) :
    ∀ s : MonitorState, KeysNodup s → KeysNodup (processEvents target_url s es) := by
  induction es with
  | nil => intro s h; exact h
  | cons e es ih =>
    intro s h
    exact ih _ (keysNodup_monitorStep target_url s e h)

theorem find?_eq_some_split {α : Type} (p : α → Bool) (l : List α) (b : α)
    (h : l.find? p = some b) :
    ∃ pre post, l = pre ++ b :: post ∧ p b = true ∧ ∀ x ∈ pre, p x = false := by
  induction l with
  | nil => cases h
  | cons a as ih =>
    by_cases hp : p a
    · rw [List.find?_cons_of_pos _ hp] at h
      cases h
      exact ⟨[], as, rfl, hp, by simp⟩
    · rw [List.find?_cons_of_neg _ hp] at h
      obtain ⟨pre, post, heq, hb, hpre⟩ := ih h
      refine ⟨a :: pre, post, by rw [heq]; rfl, hb, ?_⟩
      intro x hx
      rcases List.mem_cons.1 hx with rfl | hx
      · exact Bool.eq_false_iff.2 hp
      · exact hpre x hx

theorem click_true_iff (rules : List ConsentRule) (page : String → List BElement) :
    (click_consent_button rules page).2 = true ↔
      ∃ r ∈ rules, ∃ b ∈ page r.selector, ruleMatches r b = true := by
  induction rules with
  | nil => simp [click_consent_button]
  | cons r rs ih =>
    cases hf : (page r.selector).find? (ruleMatches r) with
    | none =>
      have hall := List.find?_eq_none.1 hf
      rw [show click_consent_button (r :: rs) page = click_consent_button rs page by
        simp [click_consent_button, hf]]
      rw [ih]
      constructor
      · rintro ⟨r', hr', hex⟩
        exact ⟨r', List.mem_cons_of_mem r hr', hex⟩
      · rintro ⟨r', hr', b, hb, hm⟩
        rcases List.mem_cons.1 hr' with rfl | hr'
        · exact absurd hm (by simpa using hall b hb)
        · exact ⟨r', hr', b, hb, hm⟩
    | some b =>
      rw [show click_consent_button (r :: rs) page = ([b], true) by
        simp [click_consent_button, hf]]
      simp only [true_iff]
      exact ⟨r, List.mem_cons_self r rs, b, List.mem_of_find?_eq_some hf,
        List.find?_some hf⟩

theorem click_shape (rules : List ConsentRule) (page : String → List BElement) :
    click_consent_button rules page = ([], false) ∨
      ∃ b, click_consent_button rules page = ([b], true) := by
  induction rules with
  | nil => exact Or.inl rfl
  | cons r rs ih =>
    cases hf : (page r.selector).find? (ruleMatches r) with
    | none => simpa [click_consent_button, hf] using ih
    | some b => exact Or.inr ⟨b, by simp [click_consent_button, hf]⟩

theorem click_first_match (rules : List ConsentRule) (page : String → List BElement)
    (b : BElement) (h : click_consent_button rules page = ([b], true)) :
    ∃ pre r post, rules = pre ++ r :: post ∧
      (∀ r2 ∈ pre, ∀ b2 ∈ page r2.selector, ruleMatches r2 b2 = false) ∧
      ∃ epre epost, page r.selector = epre ++ b :: epost ∧
        ruleMatches r b = true ∧ ∀ b2 ∈ epre, ruleMatches r b2 = false := by
  induction rules with
  | nil => simp [click_consent_button] at h
  | cons r rs ih =>
    cases hf : (page r.selector).find? (ruleMatches r) with
    | none =>
      rw [show click_consent_button (r :: rs) page = click_consent_button rs page by
        simp [click_consent_button, hf]] at h
      obtain ⟨pre, r', post, heq, hpre, hsplit⟩ := ih h
      refine ⟨r :: pre, r', post, by rw [heq]; rfl, ?_, hsplit⟩
      intro r2 hr2 b2 hb2
      rcases List.mem_cons.1 hr2 with rfl | hr2
      · exact Bool.eq_false_iff.2 (by simpa using List.find?_eq_none.1 hf b2 hb2)
      · exact hpre r2 hr2 b2 hb2
    | some b' =>
      rw [show click_consent_button (r :: rs) page = ([b'], true) by
        simp [click_consent_button, hf]] at h
      have hb : b' = b := by
        have := congrArg Prod.fst h
        simpa using this
      subst hb
      obtain ⟨epre, epost, hsp, hm, hepre⟩ := find?_eq_some_split _ _ _ hf
      exact ⟨[], r, rs, rfl, by simp, epre, epost, hsp, hm, hepre⟩

theorem srcTruthy_eq_some (s : ScriptEl) (v : String) :
    srcTruthy s = some v ↔ s.src = some v ∧ v ≠ "" := by
  cases s with
  | mk src =>
    cases src with
    | none => simp [srcTruthy]
    | some w =>
      by_cases hw : w = ""
      · subst hw
        constructor
        · intro h
          simp [srcTruthy] at h
        · rintro ⟨h1, h2⟩
          exact absurd (Option.some_injective _ h1).symm h2
      · simp [srcTruthy, hw]
        rintro rfl
        exact hw

theorem check_script_load_iff (pattern : String) (scripts : List ScriptEl) :
    check_script_load pattern scripts = true ↔
      ∃ s ∈ scripts, ∃ v, s.src = some v ∧ v ≠ "" ∧ pyIn pattern v = true := by
  unfold check_script_load
  rw [List.any_eq_true]
  constructor
  · rintro ⟨v, hv, hp⟩
    obtain ⟨s, hs, hsv⟩ := List.mem_filterMap.1 hv
    obtain ⟨hsrc, hne⟩ := (srcTruthy_eq_some s v).1 hsv
    exact ⟨s, hs, v, hsrc, hne, hp⟩
  · rintro ⟨s, hs, v, hsrc, hne, hp⟩
    exact ⟨v, List.mem_filterMap.2 ⟨s, hs, (srcTruthy_eq_some s v).2 ⟨hsrc, hne⟩⟩, hp⟩

theorem check_consent_cookie_iff (cookieName expected : String) (cookies : List Cookie) :
    check_consent_cookie cookieName expected cookies = true ↔
      ∃ c, cookies.find? (fun c => c.name == cookieName) = some c ∧
        ∃ d, b64DecodeUtf8 c.value = some d ∧ pyIn expected d = true := by
  unfold check_consent_cookie
  cases hf : cookies.find? (fun c => c.name == cookieName) with
  | none => simp
  | some c =>
    cases hd : b64DecodeUtf8 c.value with
    | none => simp [hd]
    | some d =>
      simp [hd]

/-! ## Claim theorems -/

/-- C2: for every configured rule list and page state, if at least one
rendered element matching some rule's selector has trimmed text that
case-insensitively contains that rule's expected text, `click_consent_button`
clicks exactly one element — the first matching element in rule-then-document
order — and returns `True` immediately; if no rule/element combination
matches, it clicks nothing and returns `False`. -/
theorem click_consent_button_spec (rules : List ConsentRule)
    (page : String → List BElement) :
    ((click_consent_button rules page).2 = true ↔
      ∃ r ∈ rules, ∃ b ∈ page r.selector, ruleMatches r b = true) ∧
    ((click_consent_button rules page).2 = false →
      click_consent_button rules page = ([], false)) ∧
    ((click_consent_button rules page).2 = true →
      ∃ b, click_consent_button rules page = ([b], true)) ∧
    (∀ b, click_consent_button rules page = ([b], true) →
      ∃ pre r post, rules = pre ++ r :: post ∧
        (∀ r2 ∈ pre, ∀ b2 ∈ page r2.selector, ruleMatches r2 b2 = false) ∧
        ∃ epre epost, page r.selector = epre ++ b :: epost ∧
          ruleMatches r b = true ∧ ∀ b2 ∈ epre, ruleMatches r b2 = false) := by
  refine ⟨click_true_iff rules page, ?_, ?_, click_first_match rules page⟩
  · intro h
    rcases click_shape rules page with h0 | ⟨b, h1⟩
    · exact h0
    · rw [h1] at h
      simp at h
  · intro h
    rcases click_shape rules page with h0 | hb
    · rw [h0] at h
      simp at h
    · exact hb

/-- Instantiation of `click_consent_button_spec` on the sample rules and
page: the probe clicks the trimmed, case-insensitively matching element of
the first rule and reports `true`. -/
theorem click_consent_button_spec_witness :
    (click_consent_button clickRulesW clickPageW).2 = true ∧
    (∃ b, click_consent_button clickRulesW clickPageW = ([b], true)) ∧
    click_consent_button clickRulesW clickPageW = ([{ inner_text := "  OK  " }], true) := by
  have h := click_consent_button_spec clickRulesW clickPageW
  have ht : (click_consent_button clickRulesW clickPageW).2 = true := by decide
  exact ⟨ht, h.2.2.1 ht, by decide⟩

/-- C3 (amended): `check_consent_cookie` returns `True` iff the first cookie
bearing the configured name exists, its value base64-decodes to UTF-8 text,
and the decoded text contains the configured expected substring; the base64
encoding of `"consent=yes"` with expected substring `"consent=yes"` yields
`True`, and a value whose decoding raises (modelled by `b64DecodeUtf8 = none`,
the exception being caught inside the probe) yields `False`. -/
theorem check_consent_cookie_spec :
    (∀ cookieName expected cookies,
      check_consent_cookie cookieName expected cookies = true ↔
        ∃ c, cookies.find? (fun c => c.name == cookieName) = some c ∧
          ∃ d, b64DecodeUtf8 c.value = some d ∧ pyIn expected d = true) ∧
    check_consent_cookie "cc" "consent=yes"
      [{ name := "cc", value := "Y29uc2VudD15ZXM=" }] = true ∧
    b64DecodeUtf8 "Q" = none ∧
    check_consent_cookie "cc" "consent=yes" [{ name := "cc", value := "Q" }] = false := by
  refine ⟨check_consent_cookie_iff, by decide, by decide, by decide⟩

/-- C3 fails as stated: when two cookies share the configured name, a cookie
whose decoded value contains the expected substring can exist while the probe
still returns `False`, because only the first cookie with that name is
examined. -/
theorem check_consent_cookie_counterexample :
    check_consent_cookie "cc" "consent=yes"
      [{ name := "cc", value := "Q" }, { name := "cc", value := "Y29uc2VudD15ZXM=" }]
      = false ∧
    (Cookie.mk "cc" "Y29uc2VudD15ZXM=") ∈
      [Cookie.mk "cc" "Q", Cookie.mk "cc" "Y29uc2VudD15ZXM="] ∧
    (Cookie.mk "cc" "Y29uc2VudD15ZXM=").name = "cc" ∧
    b64DecodeUtf8 (Cookie.mk "cc" "Y29uc2VudD15ZXM=").value = some "consent=yes" ∧
    pyIn "consent=yes" "consent=yes" = true := by
  decide

/-- C7: `check_script_load` returns `True` iff at least one script element
has a present, non-empty `src` attribute containing the target substring;
with srcs `"/a.js"` and `"/vendor/target-v2.js"` and target `"target-v2"` it
returns `True`, and with no matching src it returns `False`. -/
theorem check_script_load_spec :
    (∀ pattern scripts, check_script_load pattern scripts = true ↔
      ∃ s ∈ scripts, ∃ v, s.src = some v ∧ v ≠ "" ∧ pyIn pattern v = true) ∧
    check_script_load "target-v2"
      [{ src := some "/a.js" }, { src := some "/vendor/target-v2.js" }] = true ∧
    check_script_load "target-v2"
      [{ src := some "/a.js" }, { src := none }, { src := some "" }] = false := by
  refine ⟨check_script_load_iff, by decide, by decide⟩

/-- C1: for every response passing the resource-type and URL filter whose
body is readable, `handle_response` appends exactly one merged record built
from the pending entry for the response's URL (or the synthesized fallback
with `request_body = none`); a request followed by a readable response to the
same URL yields exactly one record carrying the request's data; and a second
request to the same URL before any response overwrites the pending entry,
leaving a single pending record. -/
theorem correlator_request_response_merge (target_url : Option String)
    (s : MonitorState) (e : ResponseEvent) (b : String) (rq r2 : RequestEvent)
    (hre : responsePasses target_url e = true) (hb : e.body = some b)
    (hrq : requestPasses target_url rq = true) (hr2 : requestPasses target_url r2 = true)
    (hurl : e.url = rq.url) (hurl2 : r2.url = rq.url) :
    (handle_response target_url s e).ajax_data
      = s.ajax_data
        ++ [mergeInfo ((dictGet s.request_map e.url).getD (fallbackInfo e)) e b] ∧
    (processEvents target_url initState [PageEvent.req rq, PageEvent.res e]).ajax_data
      = [mergeInfo (requestInfoOf rq) e b] ∧
    (processEvents target_url initState [PageEvent.req rq, PageEvent.req r2]).request_map
      = [(rq.url, requestInfoOf r2)] := by
  have h1 : handle_request target_url initState rq
      = { ajax_data := [], request_map := [(rq.url, requestInfoOf rq)] } := by
    simp [handle_request, hrq, initState, dictSet]
  refine ⟨handle_response_ajax_data_some _ _ _ _ hre hb, ?_, ?_⟩
  · show (handle_response target_url (handle_request target_url initState rq) e).ajax_data
      = [mergeInfo (requestInfoOf rq) e b]
    rw [h1, handle_response_ajax_data_some _ _ _ _ hre hb]
    simp [dictGet, hurl]
  · show (handle_request target_url (handle_request target_url initState rq) r2).request_map
      = [(rq.url, requestInfoOf r2)]
    rw [h1, handle_request_request_map _ _ _ hr2]
    simp [dictSet, hurl2]

/-- Instantiation of `correlator_request_response_merge` on the sample
events: the request/response pair produces exactly the one merged record,
and the second request leaves a single overwritten pending entry. -/
theorem correlator_request_response_merge_witness :
    (processEvents none initState [PageEvent.req rqW, PageEvent.res reW]).ajax_data
      = [mergeInfo (requestInfoOf rqW) reW "ok-body"] ∧
    (processEvents none initState [PageEvent.req rqW, PageEvent.req rq2W]).request_map
      = [(rqW.url, requestInfoOf rq2W)] := by
  have h := correlator_request_response_merge none initState reW "ok-body" rqW rq2W
    (by decide) (by decide) (by decide) (by decide) (by decide) (by decide)
  exact ⟨h.2.1, h.2.2⟩

/-- C4: across every event sequence delivered to one registration, the
pending-request map holds at most one entry per URL at every point, and
processing a response that passes the filter leaves no entry for its URL. -/
theorem pending_map_invariant (target_url : Option String) :
    (∀ es u, (processEvents target_url initState es).request_map.countP
      (fun p => p.1 == u) ≤ 1) ∧
    (∀ s e, responsePasses target_url e = true →
      dictGet (handle_response target_url s e).request_map e.url = none) := by
  constructor
  · intro es u
    have h := keysNodup_processEvents target_url es initState
      (by simp [KeysNodup, initState])
    exact countP_key_of_nodup _ h u
  · intro s e he
    rw [handle_response_request_map _ _ _ he]
    exact dictGet_dictDel_self _ _

/-- Instantiation of `pending_map_invariant`: after two requests to the same
URL there is a single pending entry, and a processed response removes it. -/
theorem pending_map_invariant_witness :
    (processEvents none initState [PageEvent.req rqW, PageEvent.req rq2W]).request_map.countP
      (fun p => p.1 == "https://x/api?x=1") ≤ 1 ∧
    dictGet (handle_response none stateW reW).request_map reW.url = none := by
  have h := pending_map_invariant none
  exact ⟨h.1 [PageEvent.req rqW, PageEvent.req rq2W] "https://x/api?x=1",
    h.2 stateW reW (by decide)⟩

/-- C5: a response whose body read raises contributes no record at all to the
output list; the handler still completes (the deletion after the `except`
block runs when the filter passes, and the handler is the identity when it
does not), and processing of the remaining events continues from the
resulting state. -/
theorem unreadable_response_drops_record (target_url : Option String)
    (s : MonitorState) (e : ResponseEvent) (h : e.body = none) :
    (handle_response target_url s e).ajax_data = s.ajax_data ∧
    (responsePasses target_url e = true →
      (handle_response target_url s e).request_map = dictDel s.request_map e.url) ∧
    (responsePasses target_url e = false → handle_response target_url s e = s) ∧
    (∀ es, processEvents target_url s (PageEvent.res e :: es)
      = processEvents target_url (handle_response target_url s e) es) := by
  exact ⟨handle_response_ajax_data_none _ _ _ h,
    fun hp => handle_response_request_map _ _ _ hp,
    fun hp => handle_response_not_passing _ _ _ hp,
    fun es => rfl⟩

/-- Instantiation of `unreadable_response_drops_record` on the sample state
with a pending entry and a response whose `text()` raises. -/
theorem unreadable_response_drops_record_witness :
    (handle_response none stateW reFailW).ajax_data = stateW.ajax_data ∧
    (handle_response none stateW reFailW).request_map
      = dictDel stateW.request_map reFailW.url := by
  have h := unreadable_response_drops_record none stateW reFailW (by decide)
  exact ⟨h.1, h.2.1 (by decide)⟩

/-- C10: even when reading a response's body fails, the pending entry for
that URL is deleted, so a later readable response to the same URL (without an
intervening request) is merged with the synthesized fallback record
(`request_body = none`) rather than with the original request's data. -/
theorem pending_deleted_despite_unreadable_body (target_url : Option String)
    (s : MonitorState) (e e2 : ResponseEvent) (b : String)
    (h1 : responsePasses target_url e = true) (hb : e.body = none)
    (h2 : responsePasses target_url e2 = true) (hurl : e2.url = e.url)
    (hb2 : e2.body = some b) :
    dictGet (handle_response target_url s e).request_map e.url = none ∧
    (handle_response target_url (handle_response target_url s e) e2).ajax_data
      = s.ajax_data ++ [mergeInfo (fallbackInfo e2) e2 b] := by
  have hmap := handle_response_request_map target_url s e h1
  constructor
  · rw [hmap]
    exact dictGet_dictDel_self _ _
  · rw [handle_response_ajax_data_some _ _ _ _ h2 hb2,
      handle_response_ajax_data_none _ _ _ hb, hmap, hurl, dictGet_dictDel_self]
    rfl

/-- Instantiation of `pending_deleted_despite_unreadable_body`: after the
failed read, the later readable response is merged with the fallback record
whose `request_body` is `none`, not with the original POST data. -/
theorem pending_deleted_despite_unreadable_body_witness :
    dictGet (handle_response none stateW reFailW).request_map reFailW.url = none ∧
    (handle_response none (handle_response none stateW reFailW) reW).ajax_data
      = [mergeInfo (fallbackInfo reW) reW "ok-body"] ∧
    (mergeInfo (fallbackInfo reW) reW "ok-body").request_body = none := by
  have h := pending_deleted_despite_unreadable_body none stateW reFailW reW "ok-body"
    (by decide) (by decide) (by decide) (by decide) (by decide)
  exact ⟨h.1, h.2, by decide⟩

/-- C6: if browser launch or navigation raises during
`visit_and_check_consent`, the exception's string form is stored in the
result's `error` field, both request lists stay empty, and the result
document is still serialized to `consent_test_results.json`, fully
overwriting the file (the outcome is independent of the file's prior
content); the run is a total function of its environment, so the exception
never escapes. -/
theorem run_error_recorded (target_url timestamp : String) (env : RunEnv)
    (prior prior2 : String) (m : String) (h : navError env = some m) :
    (visit_and_check_consent target_url timestamp env prior).result.error = some m ∧
    (visit_and_check_consent target_url timestamp env prior).result.requests_JSALOAD
      = [] ∧
    (visit_and_check_consent target_url timestamp env prior).result.requests_JSACONFIG
      = [] ∧
    (visit_and_check_consent target_url timestamp env prior).file_content
      = serializeTestResult (visit_and_check_consent target_url timestamp env prior).result ∧
    visit_and_check_consent target_url timestamp env prior
      = visit_and_check_consent target_url timestamp env prior2 := by
  have hrun : runTryBody env = .error m := by
    unfold navError at h
    cases h1 : env.launch with
    | error e =>
      rw [h1] at h
      simp at h
      subst h
      simp [runTryBody, h1, Except.bind]
    | ok u =>
      rw [h1] at h
      cases h2 : env.clear_storage with
      | error e =>
        rw [h2] at h
        simp at h
        subst h
        simp [runTryBody, h1, h2, Except.bind]
      | ok u2 =>
        rw [h2] at h
        cases h3 : env.goto_target with
        | error e =>
          rw [h3] at h
          simp at h
          subst h
          simp [runTryBody, h1, h2, h3, Except.bind]
        | ok u3 =>
          rw [h3] at h
          simp at h
  refine ⟨?_, ?_, ?_, ?_, ?_⟩ <;> simp [visit_and_check_consent, hrun]

/-- Instantiation of `run_error_recorded` on an environment whose launch
raises: the error is recorded and the request lists are empty. -/
theorem run_error_recorded_witness :
    (visit_and_check_consent "https://t" "2025-01-01T00:00:00" runEnvFailW "old").result.error
      = some "net::ERR_NAME_NOT_RESOLVED" ∧
    (visit_and_check_consent "https://t" "2025-01-01T00:00:00" runEnvFailW "old").result.requests_JSALOAD
      = [] ∧
    (visit_and_check_consent "https://t" "2025-01-01T00:00:00" runEnvFailW "old").result.requests_JSACONFIG
      = [] := by
  have h := run_error_recorded "https://t" "2025-01-01T00:00:00" runEnvFailW
    "old" "other" "net::ERR_NAME_NOT_RESOLVED" (by decide)
  exact ⟨h.1, h.2.1, h.2.2.1⟩

/-- C8: the `finally` block closes the browser exactly when `launch_browser`
returned (bound the `browser` variable), independently of whether the rest of
the run body succeeded or raised. -/
theorem browser_closed_iff_launched (target_url timestamp : String) (env : RunEnv)
    (prior : String) :
    (visit_and_check_consent target_url timestamp env prior).browser_closed = true
      ↔ env.launch = Except.ok () := by
  cases h : env.launch with
  | ok u =>
    cases u
    simp [visit_and_check_consent, h]
  | error e =>
    simp [visit_and_check_consent, h]

/-- C9 fails as stated: on a successful page load the `/title` endpoint's
response body carries the keys `message` and `title`, not the single key
`title` the claim allows. -/
theorem get_title_counterexample :
    (get_title
        { launch := .ok ()
          new_page := .ok ()
          goto := .ok ()
          title := .ok "Example Domain" }).map Prod.fst = ["message", "title"] ∧
    (["message", "title"] : List String) ≠ ["title"] := by
  exact ⟨rfl, by decide⟩

/-- C9 (amended): for every environment, `GET /title` returns a JSON object
with exactly the keys `message` and `title` (title being the fetched page
title) when the page load succeeds, and with exactly the key `error` (the
exception's string form) when any step fails. -/
theorem get_title_response_shape (env : TitleEnv) :
    (∃ t, titleChain env = Except.ok t ∧
      get_title env = [("message", "Page title fetched successfully!"), ("title", t)]) ∨
    (∃ e, titleChain env = Except.error e ∧ get_title env = [("error", e)]) := by
  cases h : titleChain env with
  | ok t => exact Or.inl ⟨t, rfl, by simp [get_title, h]⟩
  | error e => exact Or.inr ⟨e, rfl, by simp [get_title, h]⟩

end Testpy
